import Mathlib

/-!
Shallow embedding of `cr3_extract_exif` from `src/lib.rs` of the nom-exif
repository, together with models of the helper functions it calls whose
implementations live in modules not present in the visible source tree
(`check_exif_header` from the `exif` module, `find_box` from `bbox`, the
`Error` type from `error`, and the buffered moov-body extraction). The
helpers are modelled from the specification and marked as such; everything
else is translated directly from `cr3_extract_exif` (src/lib.rs 375–434).
-/

/-- Modelled from the spec: the error taxonomy of the design document
(module `error` is not part of the visible source). `parseFailed` carries a
context message, as in the `Error::ParseFailed(String)` value built at the
call site inside `cr3_extract_exif`. -/
inductive Error where
  | ioError (msg : String)
  | unexpectedEof
  | unrecognizedFormat
  | exifNotFound
  | corruptData (msg : String)
  | unsupportedValueType (msg : String)
  | parseFailed (msg : String)
deriving DecidableEq, Repr

/-- Modelled from the spec: the textual rendering of an error, standing for
the Rust `Display` implementation used by
`format!("Failed to extract moov body: \x7b\x7d", e)` in `cr3_extract_exif`. -/
def Error.display : Error → String
  | .ioError m => "io error: " ++ m
  | .unexpectedEof => "unexpected eof"
  | .unrecognizedFormat => "unrecognized file format"
  | .exifNotFound => "Exif not found"
  | .corruptData m => "corrupt data: " ++ m
  | .unsupportedValueType m => "unsupported value type: " ++ m
  | .parseFailed m => "parse failed: " ++ m

/-- Modelled from the spec: the 6-byte EXIF signature, the ASCII bytes of
"Exif" followed by two NUL bytes. -/
def exifSignature : List Nat := [0x45, 0x78, 0x69, 0x66, 0x00, 0x00]

/-- Modelled from the spec: `check_exif_header` (module `exif`, not in the
visible source) reports whether the data begins with the 6-byte EXIF
signature. Its Rust signature is fallible (`cr3_extract_exif` calls it with
`?`), so the model returns `Except`; the spec describes it as a pure
signature test, so it never fails. -/
def check_exif_header (data : List Nat) : Except Error Bool :=
  Except.ok (exifSignature.isPrefixOf data)

/-- Result of one `find_box(moov_body, box_type)` call as matched inside
`cr3_extract_exif`: `Ok((_, Some(holder)))` carrying the box payload bytes,
`Ok((_, None))` for an absent box, or `Err(e)`. `find_box` itself lives in
module `bbox`, outside the visible source, so claims about the lookup loop
are stated over an arbitrary assignment of results to box types. -/
inductive FindBoxResult where
  | found (data : List Nat)
  | absent
  | err (e : Error)
deriving DecidableEq, Repr

/-- The box types probed by `cr3_extract_exif`, in source order
(src/lib.rs line 385). -/
def cmtBoxTypes : List String := ["CMT1", "CMT2", "CMT3", "CMT4"]

/-- The lookup loop of `cr3_extract_exif` (src/lib.rs 385–397): for each box
type in order, push the payload of a found box onto `exif_data_segments`,
skip an absent box (debug log only), and log-and-skip an erroring lookup. -/
def collectCmtSegments (find : String → FindBoxResult) : List (List Nat) :=
  cmtBoxTypes.foldl
    (fun acc boxType =>
      match find boxType with
      | FindBoxResult.found d => acc ++ [d]
      | FindBoxResult.absent => acc
      | FindBoxResult.err _ => acc)
    []

/-- Rust short-circuit `cond && check(...)?`: the fallible check runs only
when `cond` already holds; otherwise the conjunction is `false` without
running the check. -/
def andCheck (cond : Prop) [Decidable cond] (chk : Except Error Bool) :
    Except Error Bool :=
  if cond then chk else Except.ok false

/-- The endianness test of src/lib.rs 424–427:
`data[0..2] == b"II" && data[2..4] == [0x2A, 0x00]` (little endian) or
`data[0..2] == b"MM" && data[2..4] == [0x00, 0x2A]` (big endian). The Rust
slice indexing is guarded by `len >= 8` at the call site; the model uses
total `take`/`drop`. -/
def tiffHeaderCheck (cat : List Nat) : Bool :=
  (cat.take 2 == [0x49, 0x49] && (cat.drop 2).take 2 == [0x2A, 0x00]) ||
  (cat.take 2 == [0x4D, 0x4D] && (cat.drop 2).take 2 == [0x00, 0x2A])

/-- Lines 406–433 of `cr3_extract_exif`: given the concatenated CMT payloads
`cat`, locate the start of the EXIF/TIFF data. Mirrors the source's chain:
empty input and input shorter than 2 bytes yield `Ok(None)`; then
`len >= 6 && check_exif_header(data)?` strips 6 bytes,
`len >= 10 && check_exif_header(&data[4..])?` strips 10 bytes,
`len >= 8 &&` a TIFF byte-order header keeps the data as is, and anything
else yields `Ok(None)`. -/
def cr3_process_cmt (cat : List Nat) : Except Error (Option (List Nat)) :=
  if cat.isEmpty then Except.ok none
  else if cat.length < 2 then Except.ok none
  else
    match andCheck (6 ≤ cat.length) (check_exif_header cat) with
    | Except.error e => Except.error e
    | Except.ok true => Except.ok (some (cat.drop 6))
    | Except.ok false =>
      match andCheck (10 ≤ cat.length) (check_exif_header (cat.drop 4)) with
      | Except.error e => Except.error e
      | Except.ok true => Except.ok (some (cat.drop 10))
      | Except.ok false =>
        if 8 ≤ cat.length ∧ tiffHeaderCheck cat = true then
          Except.ok (some cat)
        else Except.ok none

/-- Embedding of `cr3_extract_exif` (src/lib.rs 375–434). The buffered
moov-body extraction step (`loader.load_and_parse(extract_moov_body_from_buf)`,
implemented outside the visible source) is abstracted by its result
`moovResult`, and `find` stands for `find_box` applied to the extracted moov
body. An extraction failure is wrapped as
`Error::ParseFailed(format!("Failed to extract moov body: \x7b\x7d", e))`
(src/lib.rs 378); otherwise the CMT payloads are collected, an empty segment
list returns `Ok(None)` (src/lib.rs 399–402), and the flattened concatenation
is processed by the header logic of `cr3_process_cmt`. -/
def cr3_extract_exif (moovResult : Except Error Unit)
    (find : String → FindBoxResult) : Except Error (Option (List Nat)) :=
  match moovResult with
  | Except.error e =>
      Except.error (Error.parseFailed ("Failed to extract moov body: " ++ e.display))
  | Except.ok _ =>
      let segments := collectCmtSegments find
      if segments.isEmpty then Except.ok none
      else cr3_process_cmt segments.flatten

/-- A `find_box` result assignment yielding a single `CMT1` payload and
nothing else; used to drive `cr3_extract_exif` on a chosen concatenation. -/
def singleFind (cat : List Nat) : String → FindBoxResult :=
  fun ty => if ty = "CMT1" then FindBoxResult.found cat else FindBoxResult.absent

/-- Selector for the payload of a found box, `none` otherwise. -/
def foundData (r : FindBoxResult) : Option (List Nat) :=
  match r with
  | FindBoxResult.found d => some d
  | FindBoxResult.absent => none
  | FindBoxResult.err _ => none

/-- Replacing an erroring lookup by "absent": what the loop's `Err` arm is
claimed to amount to. -/
def swallowErr (r : FindBoxResult) : FindBoxResult :=
  match r with
  | FindBoxResult.err _ => FindBoxResult.absent
  | other => other

theorem andCheck_check_eq (cond : Prop) [Decidable cond] (x : List Nat) :
    andCheck cond (check_exif_header x)
      = Except.ok (decide cond && exifSignature.isPrefixOf x) := by
  unfold andCheck check_exif_header
  by_cases h : cond <;> simp [h]

theorem isPrefixOf_length_ge {l₁ l₂ : List Nat} (h : l₁.isPrefixOf l₂ = true) :
    l₁.length ≤ l₂.length :=
  (List.isPrefixOf_iff_prefix.mp h).length_le

/-- Behavioural characterization of `cr3_process_cmt`: the three length
guards collapse to the ones forced by the signature tests themselves, except
for the TIFF branch whose `len >= 8` guard is a genuine extra condition. -/
theorem cr3_process_cmt_eq (cat : List Nat) :
    cr3_process_cmt cat =
      if cat.length < 2 then Except.ok none
      else if exifSignature.isPrefixOf cat = true then
        Except.ok (some (cat.drop 6))
      else if exifSignature.isPrefixOf (cat.drop 4) = true then
        Except.ok (some (cat.drop 10))
      else if 8 ≤ cat.length ∧ tiffHeaderCheck cat = true then
        Except.ok (some cat)
      else Except.ok none := by
  unfold cr3_process_cmt
  rw [andCheck_check_eq, andCheck_check_eq]
  by_cases h2 : cat.length < 2
  · have he : cat.isEmpty = true ∨ cat.isEmpty = false := by
      cases cat.isEmpty <;> simp
    have hp0 : exifSignature.isPrefixOf cat = false := by
      cases hp : exifSignature.isPrefixOf cat
      · rfl
      · have := isPrefixOf_length_ge hp
        simp [exifSignature] at this
        omega
    rcases he with he | he <;> simp [he, h2, hp0]
  · have hne : cat.isEmpty = false := by
      cases cat with
      | nil => simp at h2
      | cons a l => rfl
    by_cases hp0 : exifSignature.isPrefixOf cat = true
    · have h6 : 6 ≤ cat.length := by
        have := isPrefixOf_length_ge hp0
        simpa [exifSignature] using this
      simp [hne, h2, hp0, h6]
    · have hp0' : exifSignature.isPrefixOf cat = false := by
        cases hp : exifSignature.isPrefixOf cat
        · rfl
        · exact absurd hp hp0
      by_cases hp4 : exifSignature.isPrefixOf (cat.drop 4) = true
      · have h6 : 6 ≤ (cat.drop 4).length := by
          have := isPrefixOf_length_ge hp4
          simpa [exifSignature] using this
        have h10 : 10 ≤ cat.length := by
          have hd : (cat.drop 4).length = cat.length - 4 := List.length_drop 4 cat
          omega
        simp [hne, h2, hp0', hp4, h10]
      · have hp4' : exifSignature.isPrefixOf (cat.drop 4) = false := by
          cases hp : exifSignature.isPrefixOf (cat.drop 4)
          · rfl
          · exact absurd hp hp4
        simp [hne, h2, hp0', hp4']

/-- On a successfully extracted moov body, `cr3_extract_exif` is the header
logic applied to the flattened collected payloads: the early return on an
empty segment list coincides with `cr3_process_cmt` on the empty
concatenation. -/
theorem cr3_extract_ok_eq (find : String → FindBoxResult) :
    cr3_extract_exif (Except.ok ()) find
      = cr3_process_cmt ((collectCmtSegments find).flatten) := by
  unfold cr3_extract_exif
  by_cases h : (collectCmtSegments find).isEmpty = true
  · have h' : collectCmtSegments find = [] := List.isEmpty_iff.mp h
    simp [h', cr3_process_cmt]
  · have h' : (collectCmtSegments find).isEmpty = false := by
      cases hh : (collectCmtSegments find).isEmpty
      · rfl
      · exact absurd hh h
    simp [h']

/-- The lookup loop keeps exactly the payloads of found boxes, in the order
`CMT1`, `CMT2`, `CMT3`, `CMT4`. -/
theorem collectCmtSegments_eq_filterMap (find : String → FindBoxResult) :
    collectCmtSegments find = cmtBoxTypes.filterMap (fun ty => foundData (find ty)) := by
  have h : ∀ (tys : List String) (acc : List (List Nat)),
      tys.foldl (fun acc boxType =>
        match find boxType with
        | FindBoxResult.found d => acc ++ [d]
        | FindBoxResult.absent => acc
        | FindBoxResult.err _ => acc) acc
      = acc ++ tys.filterMap (fun ty => foundData (find ty)) := by
    intro tys
    induction tys with
    | nil => intro acc; simp
    | cons ty tys ih =>
      intro acc
      cases hty : find ty <;>
        simp [List.foldl_cons, List.filterMap_cons, hty, foundData, ih]
  simpa using h cmtBoxTypes []

theorem collectCmtSegments_singleFind (cat : List Nat) :
    collectCmtSegments (singleFind cat) = [cat] := by
  simp [collectCmtSegments, cmtBoxTypes, singleFind]

theorem singleFind_flatten (cat : List Nat) :
    (collectCmtSegments (singleFind cat)).flatten = cat := by
  simp [collectCmtSegments_singleFind]

/-- Every outcome of the header logic is a success carrying either no
payload, the input minus 6 bytes, the input minus 10 bytes, or the input
itself. -/
theorem cr3_process_cmt_shape (cat : List Nat) :
    cr3_process_cmt cat = Except.ok none ∨
    cr3_process_cmt cat = Except.ok (some (cat.drop 6)) ∨
    cr3_process_cmt cat = Except.ok (some (cat.drop 10)) ∨
    cr3_process_cmt cat = Except.ok (some cat) := by
  rw [cr3_process_cmt_eq]
  by_cases h1 : cat.length < 2
  · simp [h1]
  · by_cases h2 : exifSignature.isPrefixOf cat = true
    · simp [h1, h2]
    · by_cases h3 : exifSignature.isPrefixOf (cat.drop 4) = true
      · simp [h1, h2, h3]
      · by_cases h4 : 8 ≤ cat.length ∧ tiffHeaderCheck cat = true
        · simp [h1, h2, h3, h4]
        · simp [h1, h2, h3, h4]

theorem cr3_process_cmt_ne_error (cat : List Nat) (e : Error) :
    cr3_process_cmt cat ≠ Except.error e := by
  rcases cr3_process_cmt_shape cat with h | h | h | h <;> rw [h] <;> simp

/-- C2: a CMT-box concatenation that begins with the 6-byte EXIF signature
is returned with exactly its first 6 bytes removed; the removed bytes are
the signature itself, so the remainder is byte-for-byte intact. -/
theorem cr3_c2_exif_sig_strips_six (find : String → FindBoxResult)
    (cat : List Nat)
    (hjoin : (collectCmtSegments find).flatten = cat)
    (hsig : exifSignature.isPrefixOf cat = true) :
    cr3_extract_exif (Except.ok ()) find = Except.ok (some (cat.drop 6)) ∧
    exifSignature ++ cat.drop 6 = cat := by
  have h6 : 6 ≤ cat.length := by
    have := isPrefixOf_length_ge hsig
    simpa [exifSignature] using this
  constructor
  · rw [cr3_extract_ok_eq, hjoin, cr3_process_cmt_eq]
    have h2 : ¬ cat.length < 2 := by omega
    simp [h2, hsig]
  · obtain ⟨t, ht⟩ := List.isPrefixOf_iff_prefix.mp hsig
    rw [← ht]
    have hd : (exifSignature ++ t).drop 6 = t := by
      simp [exifSignature]
    rw [hd]

theorem cr3_c2_exif_sig_strips_six_witness :
    cr3_extract_exif (Except.ok ())
        (singleFind [0x45, 0x78, 0x69, 0x66, 0x00, 0x00, 0xAB, 0xCD])
      = Except.ok (some [0xAB, 0xCD]) := by
  have h := cr3_c2_exif_sig_strips_six
      (singleFind [0x45, 0x78, 0x69, 0x66, 0x00, 0x00, 0xAB, 0xCD])
      [0x45, 0x78, 0x69, 0x66, 0x00, 0x00, 0xAB, 0xCD]
      (by rfl) (by decide)
  simpa [exifSignature] using h.1

/-- C3: a CMT-box concatenation that does not itself begin with the EXIF
signature, but does from offset 4 onward, is returned with exactly its first
10 bytes removed. -/
theorem cr3_c3_prefixed_sig_strips_ten (find : String → FindBoxResult)
    (cat : List Nat)
    (hjoin : (collectCmtSegments find).flatten = cat)
    (h0 : exifSignature.isPrefixOf cat = false)
    (h4 : exifSignature.isPrefixOf (cat.drop 4) = true) :
    cr3_extract_exif (Except.ok ()) find = Except.ok (some (cat.drop 10)) := by
  have h6 : 6 ≤ (cat.drop 4).length := by
    have := isPrefixOf_length_ge h4
    simpa [exifSignature] using this
  have h10 : 10 ≤ cat.length := by
    have hd : (cat.drop 4).length = cat.length - 4 := List.length_drop 4 cat
    omega
  rw [cr3_extract_ok_eq, hjoin, cr3_process_cmt_eq]
  have h2 : ¬ cat.length < 2 := by omega
  simp [h2, h0, h4]

theorem cr3_c3_prefixed_sig_strips_ten_witness :
    cr3_extract_exif (Except.ok ())
        (singleFind [1, 2, 3, 4, 0x45, 0x78, 0x69, 0x66, 0x00, 0x00, 0x42])
      = Except.ok (some [0x42]) := by
  have h := cr3_c3_prefixed_sig_strips_ten
      (singleFind [1, 2, 3, 4, 0x45, 0x78, 0x69, 0x66, 0x00, 0x00, 0x42])
      [1, 2, 3, 4, 0x45, 0x78, 0x69, 0x66, 0x00, 0x00, 0x42]
      (by rfl) (by decide) (by decide)
  exact h

/-- C4: a CMT-box concatenation shorter than 2 bytes yields a successful
"no data" result, never an error. -/
theorem cr3_c4_short_input_no_data (find : String → FindBoxResult)
    (cat : List Nat)
    (hjoin : (collectCmtSegments find).flatten = cat)
    (hlen : cat.length < 2) :
    cr3_extract_exif (Except.ok ()) find = Except.ok none := by
  rw [cr3_extract_ok_eq, hjoin, cr3_process_cmt_eq]
  simp [hlen]

theorem cr3_c4_short_input_no_data_witness :
    cr3_extract_exif (Except.ok ()) (singleFind [0x42]) = Except.ok none := by
  have h := cr3_c4_short_input_no_data (singleFind [0x42]) [0x42]
      (by rfl) (by decide)
  exact h

/-- C5: a CMT-box concatenation of length at least 2 that begins neither
with the EXIF signature (directly or at offset 4) nor with a TIFF byte-order
header yields a successful "no data" result, never an error. -/
theorem cr3_c5_unrecognized_no_data (find : String → FindBoxResult)
    (cat : List Nat)
    (hjoin : (collectCmtSegments find).flatten = cat)
    (hlen : 2 ≤ cat.length)
    (h0 : exifSignature.isPrefixOf cat = false)
    (h4 : exifSignature.isPrefixOf (cat.drop 4) = false)
    (ht : tiffHeaderCheck cat = false) :
    cr3_extract_exif (Except.ok ()) find = Except.ok none := by
  rw [cr3_extract_ok_eq, hjoin, cr3_process_cmt_eq]
  have h2 : ¬ cat.length < 2 := by omega
  simp [h2, h0, h4, ht]

theorem cr3_c5_unrecognized_no_data_witness :
    cr3_extract_exif (Except.ok ()) (singleFind [9, 9, 9, 9, 9, 9, 9, 9, 9, 9])
      = Except.ok none := by
  have h := cr3_c5_unrecognized_no_data
      (singleFind [9, 9, 9, 9, 9, 9, 9, 9, 9, 9]) [9, 9, 9, 9, 9, 9, 9, 9, 9, 9]
      (by rfl) (by decide) (by decide) (by decide) (by decide)
  exact h

/-- C1 counterexample: the 4-byte concatenation `49 49 2A 00` satisfies every
hypothesis of the claim (length at least 2, no EXIF signature at offset 0 or
4, a little-endian TIFF header at the start), yet `cr3_extract_exif` answers
"no data" instead of returning it unchanged: the source's TIFF branch also
demands `len >= 8`. -/
theorem cr3_c1_short_tiff_counterexample :
    (collectCmtSegments (singleFind [0x49, 0x49, 0x2A, 0x00])).flatten
        = [0x49, 0x49, 0x2A, 0x00] ∧
    2 ≤ ([0x49, 0x49, 0x2A, 0x00] : List Nat).length ∧
    exifSignature.isPrefixOf [0x49, 0x49, 0x2A, 0x00] = false ∧
    exifSignature.isPrefixOf (([0x49, 0x49, 0x2A, 0x00] : List Nat).drop 4) = false ∧
    tiffHeaderCheck [0x49, 0x49, 0x2A, 0x00] = true ∧
    cr3_extract_exif (Except.ok ()) (singleFind [0x49, 0x49, 0x2A, 0x00])
        = Except.ok none ∧
    cr3_extract_exif (Except.ok ()) (singleFind [0x49, 0x49, 0x2A, 0x00])
        ≠ Except.ok (some [0x49, 0x49, 0x2A, 0x00]) := by
  refine ⟨by rfl, by decide, by decide, by decide, by decide, by rfl, ?_⟩
  intro h
  rw [show cr3_extract_exif (Except.ok ()) (singleFind [0x49, 0x49, 0x2A, 0x00])
      = Except.ok none from rfl] at h
  simp at h

/-- C1 (amended): a CMT-box concatenation that does not begin with the EXIF
signature (directly or after a 4-byte prefix) but begins directly with a
little- or big-endian TIFF header is returned unchanged, provided it is at
least 8 bytes long (the code's additional guard); below 8 bytes the result
is "no data". -/
theorem cr3_c1_tiff_kept_as_is (find : String → FindBoxResult)
    (cat : List Nat)
    (hjoin : (collectCmtSegments find).flatten = cat)
    (h0 : exifSignature.isPrefixOf cat = false)
    (h4 : exifSignature.isPrefixOf (cat.drop 4) = false)
    (ht : tiffHeaderCheck cat = true)
    (h8 : 8 ≤ cat.length) :
    cr3_extract_exif (Except.ok ()) find = Except.ok (some cat) := by
  rw [cr3_extract_ok_eq, hjoin, cr3_process_cmt_eq]
  have h2 : ¬ cat.length < 2 := by omega
  simp [h2, h0, h4, ht, h8]

theorem cr3_c1_tiff_kept_as_is_witness :
    cr3_extract_exif (Except.ok ())
        (singleFind [0x49, 0x49, 0x2A, 0x00, 8, 0, 0, 0])
      = Except.ok (some [0x49, 0x49, 0x2A, 0x00, 8, 0, 0, 0]) := by
  have h := cr3_c1_tiff_kept_as_is
      (singleFind [0x49, 0x49, 0x2A, 0x00, 8, 0, 0, 0])
      [0x49, 0x49, 0x2A, 0x00, 8, 0, 0, 0]
      (by rfl) (by decide) (by decide) (by decide) (by decide)
  exact h

/-- C6: the lookup loop collects exactly the payloads of the found boxes in
the order `CMT1`, `CMT2`, `CMT3`, `CMT4`, skipping absent ones; the function
then processes the in-order flattened concatenation, and no pattern of
absent boxes can make it return an error. -/
theorem cr3_c6_concat_in_order (find : String → FindBoxResult) :
    collectCmtSegments find
        = cmtBoxTypes.filterMap (fun ty => foundData (find ty)) ∧
    cr3_extract_exif (Except.ok ()) find
        = cr3_process_cmt
            ((cmtBoxTypes.filterMap (fun ty => foundData (find ty))).flatten) ∧
    ∀ e, cr3_extract_exif (Except.ok ()) find ≠ Except.error e := by
  refine ⟨collectCmtSegments_eq_filterMap find, ?_, ?_⟩
  · rw [cr3_extract_ok_eq, collectCmtSegments_eq_filterMap]
  · intro e h
    rw [cr3_extract_ok_eq] at h
    exact cr3_process_cmt_ne_error _ e h

/-- C7: when the moov-body extraction fails with a lower-level error `e`,
`cr3_extract_exif` fails with `ParseFailed` whose message is the location
context "Failed to extract moov body: " followed by the rendering of the
original cause `e`. -/
theorem cr3_c7_moov_failure_wrapped (e : Error) (find : String → FindBoxResult) :
    cr3_extract_exif (Except.error e) find
      = Except.error
          (Error.parseFailed ("Failed to extract moov body: " ++ e.display)) := rfl

/-- C8: an erroring `find_box` lookup is swallowed: the collected segments
are the same as if every erroring box were simply absent, and no lookup
error can surface as an error of `cr3_extract_exif`. -/
theorem cr3_c8_lookup_error_swallowed (find : String → FindBoxResult) :
    collectCmtSegments find
        = collectCmtSegments (fun ty => swallowErr (find ty)) ∧
    ∀ e, cr3_extract_exif (Except.ok ()) find ≠ Except.error e := by
  constructor
  · rw [collectCmtSegments_eq_filterMap, collectCmtSegments_eq_filterMap]
    have hsel : ∀ r, foundData (swallowErr r) = foundData r := by
      intro r; cases r <;> rfl
    simp [hsel]
  · intro e h
    rw [cr3_extract_ok_eq] at h
    exact cr3_process_cmt_ne_error _ e h

/-- C9: every payload `cr3_extract_exif` succeeds with is the CMT
concatenation with exactly 0, 6, or 10 leading bytes removed — a contiguous
suffix, never reordered or padded. -/
theorem cr3_c9_payload_is_suffix (find : String → FindBoxResult)
    (cat out : List Nat)
    (hjoin : (collectCmtSegments find).flatten = cat)
    (hok : cr3_extract_exif (Except.ok ()) find = Except.ok (some out)) :
    out = cat.drop 0 ∨ out = cat.drop 6 ∨ out = cat.drop 10 := by
  rw [cr3_extract_ok_eq, hjoin] at hok
  rcases cr3_process_cmt_shape cat with h | h | h | h <;> rw [h] at hok <;>
    simp_all [List.drop_zero]

theorem cr3_c9_payload_is_suffix_witness :
    ([0xAB, 0xCD] : List Nat)
        = ([0x45, 0x78, 0x69, 0x66, 0x00, 0x00, 0xAB, 0xCD] : List Nat).drop 0 ∨
    ([0xAB, 0xCD] : List Nat)
        = ([0x45, 0x78, 0x69, 0x66, 0x00, 0x00, 0xAB, 0xCD] : List Nat).drop 6 ∨
    ([0xAB, 0xCD] : List Nat)
        = ([0x45, 0x78, 0x69, 0x66, 0x00, 0x00, 0xAB, 0xCD] : List Nat).drop 10 :=
  cr3_c9_payload_is_suffix
    (singleFind [0x45, 0x78, 0x69, 0x66, 0x00, 0x00, 0xAB, 0xCD])
    [0x45, 0x78, 0x69, 0x66, 0x00, 0x00, 0xAB, 0xCD]
    [0xAB, 0xCD] rfl rfl

/-- C10: when none of `CMT1`–`CMT4` is found in the moov body, the result is
a successful "no data" (`Ok(None)`), not `ExifNotFound` or any other
error. -/
theorem cr3_c10_none_found_ok_none (find : String → FindBoxResult)
    (habs : ∀ ty ∈ cmtBoxTypes, find ty = FindBoxResult.absent) :
    cr3_extract_exif (Except.ok ()) find = Except.ok none := by
  have hcol : collectCmtSegments find = [] := by
    rw [collectCmtSegments_eq_filterMap]
    refine List.filterMap_eq_nil_iff.mpr ?_
    intro ty hty
    rw [habs ty hty]
    rfl
  rw [cr3_extract_ok_eq, hcol]
  rfl

theorem cr3_c10_none_found_ok_none_witness :
    cr3_extract_exif (Except.ok ()) (fun _ => FindBoxResult.absent)
      = Except.ok none :=
  cr3_c10_none_found_ok_none (fun _ => FindBoxResult.absent)
    (fun _ _ => rfl)
